import Mathlib

/-!
Shallow embedding of the geco-i2b2-data-source core: the i2b2 envelope model
(`pkg/i2b2api/models/common.go`) and the data-source construction and
operation-dispatch layer (`pkg/datasource`, the unnamed source file).

Go conventions mapped to Lean:
- a Go `error` value is `Option String` (its message) or `Except String α`
  for `(value, error)` pairs where exactly one side is meaningful;
- Go nil slices / nil byte slices are `none`, so `Option (List String)` and
  `Option String` stand for `[]gecosdk.DataObject` and `[]byte`;
- `time.Time` is abstracted by the two observables the code reads from the
  single `time.Now()` call: its RFC3339 rendering and its Unix seconds;
- `time.Duration` is an `Int` count of nanoseconds, as in Go;
- XML serialization metadata (the `XMLName` fields) is omitted: it is a
  constant of the struct type, never read or written by the embedded code.
-/

namespace I2b2

/-- A single reading of the wall clock, abstracted by the two observables
`NewRequest` extracts from it: `now.Format(time.RFC3339)` and `now.Unix()`. -/
structure Instant where
  rfc3339 : String
  unixSec : Int
deriving Repr, DecidableEq

/-- `MessageHeader` of `common.go`: the i2b2 XML header embedded in a request
or response, field for field (XMLName omitted). -/
structure MessageHeader where
  i2b2VersionCompatible : String
  hl7VersionCompatible : String
  sendingApplicationApplicationName : String
  sendingApplicationApplicationVersion : String
  sendingFacilityFacilityName : String
  receivingApplicationApplicationName : String
  receivingApplicationApplicationVersion : String
  receivingFacilityFacilityName : String
  datetimeOfMessage : String
  securityDomain : String
  securityUsername : String
  securityPassword : String
  messageTypeMessageCode : String
  messageTypeEventType : String
  messageTypeMessageStructure : String
  messageControlIDSessionID : String
  messageControlIDMessageNum : String
  messageControlIDInstanceNum : String
  processingIDProcessingID : String
  processingIDProcessingMode : String
  acceptAcknowledgementType : String
  applicationAcknowledgementType : String
  countryCode : String
  projectID : String
deriving Repr, DecidableEq

/-- `RequestHeader` of `common.go` (XMLName omitted). -/
structure RequestHeader where
  resultWaittimeMs : String
deriving Repr, DecidableEq

/-- `Request` of `common.go`. `MessageBody` is an opaque `interface{}` in Go;
it is modelled as an optional opaque payload, `none` standing for Go `nil`. -/
structure Request where
  xmlnsMsg : String
  xmlnsPdo : String
  xmlnsOnt : String
  xmlnsCrcPdo : String
  xmlnsCrcPsm : String
  messageHeader : MessageHeader
  requestHeader : RequestHeader
  messageBody : Option String
deriving Repr, DecidableEq

/-- `ConnectionInfo` of the i2b2 client models: hive URL, credentials, project
and result wait time (a Go `time.Duration`, i.e. nanoseconds). -/
structure ConnectionInfo where
  hiveURL : String
  domain : String
  username : String
  password : String
  project : String
  waitTime : Int
deriving Repr, DecidableEq

/-- Go standard library `time.Duration.Milliseconds()`:
`int64(d) / 1e6`, integer division truncating toward zero. -/
def Duration.milliseconds (d : Int) : Int :=
  Int.tdiv d 1000000

/-- `NewRequest` of `common.go`: a ready-to-use i2b2 request with a nil
message body. The single `now := time.Now()` reading is the parameter. -/
def NewRequest (now : Instant) : Request :=
  { xmlnsMsg := "http://www.i2b2.org/xsd/hive/msg/1.1/"
    xmlnsOnt := "http://www.i2b2.org/xsd/cell/ont/1.1/"
    xmlnsPdo := "http://www.i2b2.org/xsd/hive/pdo/1.1/"
    xmlnsCrcPdo := "http://www.i2b2.org/xsd/cell/crc/pdo/1.1/"
    xmlnsCrcPsm := "http://www.i2b2.org/xsd/cell/crc/psm/1.1/"
    messageHeader :=
      { i2b2VersionCompatible := "0.3"
        hl7VersionCompatible := "2.4"
        sendingApplicationApplicationName := "GeCo i2b2 Data Source"
        sendingApplicationApplicationVersion := "0.2"
        sendingFacilityFacilityName := "GeCo"
        receivingApplicationApplicationName := "i2b2 cell"
        receivingApplicationApplicationVersion := "1.7"
        receivingFacilityFacilityName := "i2b2 hive"
        datetimeOfMessage := now.rfc3339
        securityDomain := "NOT_SET"
        securityUsername := "NOT_SET"
        securityPassword := "NOT_SET"
        messageTypeMessageCode := "EQQ"
        messageTypeEventType := "Q04"
        messageTypeMessageStructure := "EQQ_Q04"
        messageControlIDSessionID := now.rfc3339
        messageControlIDMessageNum := toString now.unixSec
        messageControlIDInstanceNum := "0"
        processingIDProcessingID := "P"
        processingIDProcessingMode := "I"
        acceptAcknowledgementType := "messageId"
        applicationAcknowledgementType := ""
        countryCode := "CH"
        projectID := "NOT_SET" }
    requestHeader := { resultWaittimeMs := "NOT_SET" }
    messageBody := none }

/-- `NewRequestWithBody` of `common.go`. -/
def NewRequestWithBody (now : Instant) (body : Option String) : Request :=
  { NewRequest now with messageBody := body }

/-- `SetConnectionInfo` of `common.go`: sets the i2b2 connection information
in the request. `strconv.FormatInt(ms, 10)` is the decimal `toString`. -/
def Request.SetConnectionInfo (req : Request) (ci : ConnectionInfo) : Request :=
  { req with
    messageHeader :=
      { req.messageHeader with
        securityDomain := ci.domain
        securityUsername := ci.username
        securityPassword := ci.password
        projectID := ci.project }
    requestHeader :=
      { req.requestHeader with
        resultWaittimeMs := toString (Duration.milliseconds ci.waitTime) } }

/-- The anonymous `info` struct of `ResponseHeader` in `common.go`. -/
structure InfoBlock where
  text : String
  url : String
deriving Repr, DecidableEq

/-- The anonymous `status` struct of `ResponseHeader.ResultStatus`. -/
structure StatusBlock where
  text : String
  type : String
deriving Repr, DecidableEq

/-- The anonymous `polling_url` struct of `ResponseHeader.ResultStatus`. -/
structure PollingURLBlock where
  text : String
  intervalMs : String
deriving Repr, DecidableEq

/-- One `condition` entry of `ResponseHeader.ResultStatus.Conditions`. -/
structure ConditionBlock where
  text : String
  type : String
  codingSystem : String
deriving Repr, DecidableEq

/-- The anonymous `result_status` struct of `ResponseHeader` in `common.go`. -/
structure ResultStatusBlock where
  status : StatusBlock
  pollingURL : PollingURLBlock
  conditions : List ConditionBlock
deriving Repr, DecidableEq

/-- `ResponseHeader` of `common.go` (XMLName omitted). -/
structure ResponseHeader where
  info : InfoBlock
  resultStatus : ResultStatusBlock
deriving Repr, DecidableEq

/-- `Response` of `common.go`. -/
structure Response where
  messageHeader : MessageHeader
  requestHeader : RequestHeader
  responseHeader : ResponseHeader
  messageBody : Option String
deriving Repr, DecidableEq

/-- `CheckStatus` of `common.go`: `none` is a nil Go error, `some msg` an
error whose message is `msg` (built by `errors.New(Status.Text)`). -/
def Response.CheckStatus (response : Response) : Option String :=
  if response.responseHeader.resultStatus.status.type ≠ "DONE" then
    some response.responseHeader.resultStatus.status.text
  else
    none

/-- `logError` of the data source: `fmt.Errorf("%v", errMsg)` when the cause
is nil, `fmt.Errorf("%v: %v", errMsg, causedBy)` otherwise. The returned Go
error is modelled by its message. -/
def logError (errMsg : String) (causedBy : Option String) : String :=
  match causedBy with
  | none => errMsg
  | some c => errMsg ++ ": " ++ c

/-- Modelled from the spec: the value of the `Operation` constant
`OperationSearchConcept`. The constants' declarations live outside the
provided source; the spec names the recognized operation tokens
search-concept, search-modifier, explore-query, get-cohorts, add-cohort,
delete-cohort, survival-query, search-ontology. -/
def OperationSearchConcept : String := "search-concept"

/-- Modelled from the spec: the `OperationSearchModifier` token. -/
def OperationSearchModifier : String := "search-modifier"

/-- Modelled from the spec: the `OperationExploreQuery` token. -/
def OperationExploreQuery : String := "explore-query"

/-- Modelled from the spec: the `OperationGetCohorts` token. -/
def OperationGetCohorts : String := "get-cohorts"

/-- Modelled from the spec: the `OperationAddCohort` token. -/
def OperationAddCohort : String := "add-cohort"

/-- Modelled from the spec: the `OperationDeleteCohort` token. -/
def OperationDeleteCohort : String := "delete-cohort"

/-- Modelled from the spec: the `OperationSurvivalQuery` token, recognized
but not implemented. -/
def OperationSurvivalQuery : String := "survival-query"

/-- Modelled from the spec: the `OperationSearchOntology` token, recognized
but not implemented. -/
def OperationSearchOntology : String := "search-ontology"

/-- An `OperationHandler`: user ID, serialized JSON parameters and the
output-data-object shared-ID map in, then `(jsonResults, outputDataObjects,
err)` out. `none` in the first two components is a nil Go slice; `some msg`
in the last is a non-nil Go error with message `msg`. -/
def OperationHandler : Type :=
  String → String → List (String × String) →
    Option String × Option (List String) × Option String

/-- The six implemented handler methods of `I2b2DataSource`
(`SearchConceptHandler`, ..., `DeleteCohortHandler`). Their bodies are
external to the dispatch layer; they are carried as opaque function values,
standing for the receiver's method suite. -/
structure OperationHandlers where
  searchConceptHandler : OperationHandler
  searchModifierHandler : OperationHandler
  exploreQueryHandler : OperationHandler
  getCohortsHandler : OperationHandler
  addCohortHandler : OperationHandler
  deleteCohortHandler : OperationHandler

/-- The tail of `Query` after the switch resolved a handler: invoke it, and
on a non-nil handler error return nil results, nil outputs and the error
wrapped with the operation name; on success return the handler's results. -/
def runHandler (handler : OperationHandler)
    (userID operation jsonParameters : String)
    (sharedIDs : List (String × String)) :
    Option String × Option (List String) × Option String :=
  match handler userID jsonParameters sharedIDs with
  | (_, _, some e) =>
      (none, none, some (logError ( "executing operation " ++ operation) (some e)))
  | (jsonResults, outputDataObjects, none) =>
      (jsonResults, outputDataObjects, none)

/-- `Query` of the data source: the switch on the operation name, in source
order. The result triple is `(jsonResults, outputDataObjects, err)`. -/
def Query (ds : OperationHandlers) (userID operation jsonParameters : String)
    (sharedIDs : List (String × String)) :
    Option String × Option (List String) × Option String :=
  if operation = OperationSearchConcept then
    runHandler ds.searchConceptHandler userID operation jsonParameters sharedIDs
  else if operation = OperationSearchModifier then
    runHandler ds.searchModifierHandler userID operation jsonParameters sharedIDs
  else if operation = OperationExploreQuery then
    runHandler ds.exploreQueryHandler userID operation jsonParameters sharedIDs
  else if operation = OperationGetCohorts then
    runHandler ds.getCohortsHandler userID operation jsonParameters sharedIDs
  else if operation = OperationAddCohort then
    runHandler ds.addCohortHandler userID operation jsonParameters sharedIDs
  else if operation = OperationDeleteCohort then
    runHandler ds.deleteCohortHandler userID operation jsonParameters sharedIDs
  else if operation = OperationSurvivalQuery then
    (none, none, some (logError "operation survivalQuery not implemented" none))
  else if operation = OperationSearchOntology then
    (none, none, some (logError "operation searchOntology not implemented" none))
  else
    (none, none,
      some (logError ( "unknown query requested ( " ++ operation ++ ")") none))

/-- The handler the switch of `Query` resolves for an operation name, `none`
for the two unimplemented tokens and for unknown names. -/
def resolveHandler (ds : OperationHandlers) (operation : String) :
    Option OperationHandler :=
  if operation = OperationSearchConcept then some ds.searchConceptHandler
  else if operation = OperationSearchModifier then some ds.searchModifierHandler
  else if operation = OperationExploreQuery then some ds.exploreQueryHandler
  else if operation = OperationGetCohorts then some ds.getCohortsHandler
  else if operation = OperationAddCohort then some ds.addCohortHandler
  else if operation = OperationDeleteCohort then some ds.deleteCohortHandler
  else none

/-- The state `NewI2b2DataSource` builds into the returned `I2b2DataSource`:
the parsed connection info and the ontology max-elements passthrough. The
logger and the database handle carry no further observable state here. -/
structure I2b2DataSource where
  ci : ConnectionInfo
  i2b2OntMaxElements : String
deriving Repr, DecidableEq

/-- Go map indexing `config[key]` on a `map[string]string`: the zero value
`""` when the key is absent. -/
def configGet (config : List (String × String)) (key : String) : String :=
  (config.lookup key).getD ""

/-- `NewI2b2DataSource`: database initialization first (its outcome
`dbResult` abstracts the external `database.NewPostgresDatabase`, which is
out of scope per the spec), then the connection info is filled from the
configuration keys verbatim and the wait time parsed by the Go standard
library `time.ParseDuration`, abstracted as `parseDuration` returning the
duration in nanoseconds or an error message. `.error` is the Go
`(nil, err)` return, `.ok` the `(ds, nil)` return. -/
def NewI2b2DataSource (dbResult : Except String Unit)
    (parseDuration : String → Except String Int)
    (config : List (String × String)) : Except String I2b2DataSource :=
  match dbResult with
  | .error e => .error (logError "initializing database connection" (some e))
  | .ok _ =>
    match parseDuration (configGet config "i2b2.api.wait-time") with
    | .error e => .error (logError "parsing i2b2 wait time" (some e))
    | .ok d =>
        .ok { ci :=
                { hiveURL := configGet config "i2b2.api.url"
                  domain := configGet config "i2b2.api.domain"
                  username := configGet config "i2b2.api.username"
                  password := configGet config "i2b2.api.password"
                  project := configGet config "i2b2.api.project"
                  waitTime := d }
              i2b2OntMaxElements := configGet config "i2b2.api.ont-max-elements" }

/-! Helper lemmas and concrete instances shared by the theorems below. -/

/-- Two strings differ when the first character of `a` differs from the first
character of the prefix `b` of the right-hand side. -/
theorem string_ne_append_left (a b c : String)
    (hne : a.data[0]? ≠ b.data[0]?) (hb : 0 < b.data.length) : a ≠ b ++ c := by
  intro heq
  apply hne
  have hd := congrArg String.data heq
  rw [String.data_append] at hd
  rw [hd, List.getElem?_append, if_pos hb]

/-- When the switch of `Query` resolves a handler for the operation name,
`Query` is the handler invocation tail `runHandler`. -/
theorem query_eq_runHandler (ds : OperationHandlers)
    (userID operation jsonParameters : String)
    (sharedIDs : List (String × String)) (handler : OperationHandler)
    (hres : resolveHandler ds operation = some handler) :
    Query ds userID operation jsonParameters sharedIDs =
      runHandler handler userID operation jsonParameters sharedIDs := by
  unfold resolveHandler at hres
  unfold Query
  split_ifs at hres with h1 h2 h3 h4 h5 h6
  · rw [if_pos h1]; injection hres with hh; rw [hh]
  · rw [if_neg h1, if_pos h2]; injection hres with hh; rw [hh]
  · rw [if_neg h1, if_neg h2, if_pos h3]; injection hres with hh; rw [hh]
  · rw [if_neg h1, if_neg h2, if_neg h3, if_pos h4]
    injection hres with hh; rw [hh]
  · rw [if_neg h1, if_neg h2, if_neg h3, if_neg h4, if_pos h5]
    injection hres with hh; rw [hh]
  · rw [if_neg h1, if_neg h2, if_neg h3, if_neg h4, if_neg h5, if_pos h6]
    injection hres with hh; rw [hh]

/-- A fixed clock reading used in concrete instantiations. -/
def instantEx : Instant :=
  { rfc3339 := "2020-01-01T00:00:00Z", unixSec := 1577836800 }

/-- A concrete response around a given status type and status text: the
message header of a fresh request, an empty info block, no polling URL and
no conditions. -/
def responseEx (t x : String) : Response :=
  { messageHeader := (NewRequest instantEx).messageHeader
    requestHeader := { resultWaittimeMs := "NOT_SET" }
    responseHeader :=
      { info := { text := "", url := "" }
        resultStatus :=
          { status := { text := x, type := t }
            pollingURL := { text := "", intervalMs := "" }
            conditions := [] } }
    messageBody := none }

/-- A handler that succeeds with a result and an empty output list. -/
def handlerOkEx : OperationHandler :=
  fun _ _ _ => (some "ok", some [], none)

/-- A handler that fails with error message boom. -/
def handlerFailEx : OperationHandler :=
  fun _ _ _ => (none, none, some "boom")

/-- A concrete handler suite: the search-concept handler fails, the other
five succeed. -/
def handlersEx : OperationHandlers :=
  { searchConceptHandler := handlerFailEx
    searchModifierHandler := handlerOkEx
    exploreQueryHandler := handlerOkEx
    getCohortsHandler := handlerOkEx
    addCohortHandler := handlerOkEx
    deleteCohortHandler := handlerOkEx }

/-- The connection info of the spec's end-to-end scenario: wait time 5s,
i.e. 5000000000 nanoseconds. -/
def connectionInfoEx : ConnectionInfo :=
  { hiveURL := "http://hive.example/pm", domain := "d", username := "u"
    password := "p", project := "proj1", waitTime := 5000000000 }

/-- A connection info with zero wait time and empty credentials. -/
def connectionInfoZeroEx : ConnectionInfo :=
  { hiveURL := "", domain := "", username := "", password := ""
    project := "", waitTime := 0 }

/-- A duration parser accepting exactly the string 5s. -/
def parseDurationEx : String → Except String Int :=
  fun s => if s = "5s" then .ok 5000000000 else .error "time: invalid duration"

/-! Claim theorems. -/

/-- C1: for every `Response`, `CheckStatus` succeeds (nil error) if and only
if the status type is exactly the literal DONE; for every other status type
(the empty string included) it errors with exactly the status text verbatim
(the empty string included). -/
theorem checkStatus_done_iff (r : Response) :
    (r.CheckStatus = none ↔
      r.responseHeader.resultStatus.status.type = "DONE")
  ∧ (r.responseHeader.resultStatus.status.type ≠ "DONE" →
      r.CheckStatus = some r.responseHeader.resultStatus.status.text) := by
  unfold Response.CheckStatus
  split_ifs with h
  · simp [h]
  · simp [not_not.mp (by simpa using h)]

/-- Witness for C1: a DONE response succeeds; an ERROR response with text
bad query errors with exactly that text; an empty status type errors with
the empty text verbatim. -/
theorem checkStatus_done_iff_witness :
    (responseEx "DONE" "").CheckStatus = none
  ∧ (responseEx "ERROR" "bad query").CheckStatus = some "bad query"
  ∧ (responseEx "" "").CheckStatus = some "" :=
  ⟨(checkStatus_done_iff (responseEx "DONE" "")).1.mpr rfl,
   (checkStatus_done_iff (responseEx "ERROR" "bad query")).2 (by decide),
   (checkStatus_done_iff (responseEx "" "")).2 (by decide)⟩

/-- C5: `SetConnectionInfo` overwrites exactly the message-header fields
security domain, security username, security password and project ID, plus
the request-header wait-time field, and leaves every other message-header
field unchanged. -/
theorem setConnectionInfo_frame (req : Request) (ci : ConnectionInfo) :
    (req.SetConnectionInfo ci).messageHeader.securityDomain = ci.domain
  ∧ (req.SetConnectionInfo ci).messageHeader.securityUsername = ci.username
  ∧ (req.SetConnectionInfo ci).messageHeader.securityPassword = ci.password
  ∧ (req.SetConnectionInfo ci).messageHeader.projectID = ci.project
  ∧ (req.SetConnectionInfo ci).requestHeader.resultWaittimeMs =
      toString (Duration.milliseconds ci.waitTime)
  ∧ (req.SetConnectionInfo ci).messageHeader.i2b2VersionCompatible =
      req.messageHeader.i2b2VersionCompatible
  ∧ (req.SetConnectionInfo ci).messageHeader.hl7VersionCompatible =
      req.messageHeader.hl7VersionCompatible
  ∧ (req.SetConnectionInfo ci).messageHeader.sendingApplicationApplicationName =
      req.messageHeader.sendingApplicationApplicationName
  ∧ (req.SetConnectionInfo ci).messageHeader.sendingApplicationApplicationVersion =
      req.messageHeader.sendingApplicationApplicationVersion
  ∧ (req.SetConnectionInfo ci).messageHeader.sendingFacilityFacilityName =
      req.messageHeader.sendingFacilityFacilityName
  ∧ (req.SetConnectionInfo ci).messageHeader.receivingApplicationApplicationName =
      req.messageHeader.receivingApplicationApplicationName
  ∧ (req.SetConnectionInfo ci).messageHeader.receivingApplicationApplicationVersion =
      req.messageHeader.receivingApplicationApplicationVersion
  ∧ (req.SetConnectionInfo ci).messageHeader.receivingFacilityFacilityName =
      req.messageHeader.receivingFacilityFacilityName
  ∧ (req.SetConnectionInfo ci).messageHeader.datetimeOfMessage =
      req.messageHeader.datetimeOfMessage
  ∧ (req.SetConnectionInfo ci).messageHeader.messageTypeMessageCode =
      req.messageHeader.messageTypeMessageCode
  ∧ (req.SetConnectionInfo ci).messageHeader.messageTypeEventType =
      req.messageHeader.messageTypeEventType
  ∧ (req.SetConnectionInfo ci).messageHeader.messageTypeMessageStructure =
      req.messageHeader.messageTypeMessageStructure
  ∧ (req.SetConnectionInfo ci).messageHeader.messageControlIDSessionID =
      req.messageHeader.messageControlIDSessionID
  ∧ (req.SetConnectionInfo ci).messageHeader.messageControlIDMessageNum =
      req.messageHeader.messageControlIDMessageNum
  ∧ (req.SetConnectionInfo ci).messageHeader.messageControlIDInstanceNum =
      req.messageHeader.messageControlIDInstanceNum
  ∧ (req.SetConnectionInfo ci).messageHeader.processingIDProcessingID =
      req.messageHeader.processingIDProcessingID
  ∧ (req.SetConnectionInfo ci).messageHeader.processingIDProcessingMode =
      req.messageHeader.processingIDProcessingMode
  ∧ (req.SetConnectionInfo ci).messageHeader.acceptAcknowledgementType =
      req.messageHeader.acceptAcknowledgementType
  ∧ (req.SetConnectionInfo ci).messageHeader.applicationAcknowledgementType =
      req.messageHeader.applicationAcknowledgementType
  ∧ (req.SetConnectionInfo ci).messageHeader.countryCode =
      req.messageHeader.countryCode
  ∧ (req.SetConnectionInfo ci).messageBody = req.messageBody :=
  ⟨rfl, rfl, rfl, rfl, rfl, rfl, rfl, rfl, rfl, rfl, rfl, rfl, rfl, rfl,
   rfl, rfl, rfl, rfl, rfl, rfl, rfl, rfl, rfl, rfl, rfl, rfl⟩

/-- C6: `SetConnectionInfo` sets the request-header wait-time field to the
decimal string of the wait time converted to whole milliseconds; for the
spec's 5-second scenario this is exactly 5000 with project proj1, and a zero
wait time converts to 0 with no special-casing. -/
theorem setConnectionInfo_waittime_ms (req : Request) :
    (∀ ci : ConnectionInfo,
      (req.SetConnectionInfo ci).requestHeader.resultWaittimeMs =
        toString (Duration.milliseconds ci.waitTime))
  ∧ (req.SetConnectionInfo connectionInfoEx).requestHeader.resultWaittimeMs = "5000"
  ∧ (req.SetConnectionInfo connectionInfoEx).messageHeader.projectID = "proj1"
  ∧ ∀ ci : ConnectionInfo, ci.waitTime = 0 →
      (req.SetConnectionInfo ci).requestHeader.resultWaittimeMs = "0" := by
  refine ⟨fun ci => rfl, rfl, rfl, fun ci h => ?_⟩
  show toString (Duration.milliseconds ci.waitTime) = "0"
  rw [h]
  rfl

/-- Witness for C6: a request built at a fixed instant, with the 5-second
scenario info and with the zero-wait info. -/
theorem setConnectionInfo_waittime_ms_witness :
    ((NewRequest instantEx).SetConnectionInfo connectionInfoEx).requestHeader.resultWaittimeMs = "5000"
  ∧ ((NewRequest instantEx).SetConnectionInfo connectionInfoEx).messageHeader.projectID = "proj1"
  ∧ ((NewRequest instantEx).SetConnectionInfo connectionInfoZeroEx).requestHeader.resultWaittimeMs = "0" :=
  ⟨(setConnectionInfo_waittime_ms (NewRequest instantEx)).2.1,
   (setConnectionInfo_waittime_ms (NewRequest instantEx)).2.2.1,
   (setConnectionInfo_waittime_ms (NewRequest instantEx)).2.2.2 connectionInfoZeroEx rfl⟩

/-- C7: every request produced by `NewRequest` has session ID equal to the
current-time timestamp string, message number equal to the decimal rendering
of the current time as an integer (Unix seconds), and instance number the
constant 0. -/
theorem newRequest_control_id (now : Instant) :
    (NewRequest now).messageHeader.messageControlIDSessionID = now.rfc3339
  ∧ (NewRequest now).messageHeader.messageControlIDMessageNum =
      toString now.unixSec
  ∧ (NewRequest now).messageHeader.messageControlIDInstanceNum = "0" :=
  ⟨rfl, rfl, rfl⟩

/-- C9: `SetConnectionInfo` is idempotent: applying it twice with the same
connection info equals applying it once. -/
theorem setConnectionInfo_idempotent (req : Request) (ci : ConnectionInfo) :
    (req.SetConnectionInfo ci).SetConnectionInfo ci = req.SetConnectionInfo ci :=
  rfl

/-- C10: all time-dependent fields of a `NewRequest` derive from the single
clock reading: the message datetime always equals the control-ID session ID
(both the RFC3339 rendering of that instant), and the control-ID message
number is the Unix-seconds integer of that same instant. -/
theorem newRequest_single_clock (now : Instant) :
    (NewRequest now).messageHeader.datetimeOfMessage =
      (NewRequest now).messageHeader.messageControlIDSessionID
  ∧ (NewRequest now).messageHeader.datetimeOfMessage = now.rfc3339
  ∧ (NewRequest now).messageHeader.messageControlIDMessageNum =
      toString now.unixSec :=
  ⟨rfl, rfl, rfl⟩

/-- C2: for every operation name outside the recognized set, `Query` returns
the unknown-operation error with nil results and nil outputs, and its result
does not depend on the handlers — no handler is invoked. -/
theorem query_unknown_operation (ds : OperationHandlers)
    (userID operation jsonParameters : String)
    (sharedIDs : List (String × String))
    (h : operation ∉ [OperationSearchConcept, OperationSearchModifier,
      OperationExploreQuery, OperationGetCohorts, OperationAddCohort,
      OperationDeleteCohort, OperationSurvivalQuery, OperationSearchOntology]) :
    Query ds userID operation jsonParameters sharedIDs =
      (none, none,
        some (logError ( "unknown query requested ( " ++ operation ++ ")") none))
  ∧ ∀ ds₂ : OperationHandlers,
      Query ds₂ userID operation jsonParameters sharedIDs =
        Query ds userID operation jsonParameters sharedIDs := by
  simp only [List.mem_cons, List.mem_singleton, not_or] at h
  obtain ⟨h1, h2, h3, h4, h5, h6, h7, h8⟩ := h
  refine ⟨?_, fun ds₂ => ?_⟩
  · simp [Query, h1, h2, h3, h4, h5, h6, h7, h8]
  · simp [Query, h1, h2, h3, h4, h5, h6, h7, h8]

/-- Witness for C2: the name foo is outside the recognized set and yields
exactly the unknown-operation error with nil results and outputs. -/
theorem query_unknown_operation_witness :
    Query handlersEx "u" "foo" "p" [] =
      (none, none,
        some (logError ( "unknown query requested ( " ++ "foo" ++ ")") none)) :=
  (query_unknown_operation handlersEx "u" "foo" "p" [] (by decide)).1

/-- C3: for the two recognized-but-unimplemented operation names, `Query`
always returns the corresponding not-implemented error with nil outputs;
that error differs from the unknown-operation error and from every wrapped
handler error, and the result does not depend on the handlers. -/
theorem query_not_implemented (ds : OperationHandlers)
    (userID jsonParameters : String) (sharedIDs : List (String × String))
    (operation : String)
    (h : operation = OperationSurvivalQuery ∨ operation = OperationSearchOntology) :
    (operation = OperationSurvivalQuery →
      Query ds userID operation jsonParameters sharedIDs =
        (none, none,
          some (logError "operation survivalQuery not implemented" none)))
  ∧ (operation = OperationSearchOntology →
      Query ds userID operation jsonParameters sharedIDs =
        (none, none,
          some (logError "operation searchOntology not implemented" none)))
  ∧ (∀ msg : String,
      Query ds userID operation jsonParameters sharedIDs = (none, none, some msg) →
      msg ≠ logError ( "unknown query requested ( " ++ operation ++ ")") none
      ∧ ∀ c : String, msg ≠ logError ( "executing operation " ++ operation) (some c))
  ∧ ∀ ds₂ : OperationHandlers,
      Query ds₂ userID operation jsonParameters sharedIDs =
        Query ds userID operation jsonParameters sharedIDs := by
  rcases h with h | h
  · subst h
    refine ⟨fun _ => rfl, fun hc => absurd hc (by decide), fun msg hmsg => ?_, fun ds₂ => rfl⟩
    have h0 : Query ds userID OperationSurvivalQuery jsonParameters sharedIDs =
        (none, none, some "operation survivalQuery not implemented") := rfl
    rw [h0] at hmsg
    simp only [Prod.mk.injEq, Option.some.injEq, true_and] at hmsg
    subst hmsg
    refine ⟨by decide, fun c => ?_⟩
    exact string_ne_append_left _ _ _ (by decide) (by decide)
  · subst h
    refine ⟨fun hc => absurd hc (by decide), fun _ => rfl, fun msg hmsg => ?_, fun ds₂ => rfl⟩
    have h0 : Query ds userID OperationSearchOntology jsonParameters sharedIDs =
        (none, none, some "operation searchOntology not implemented") := rfl
    rw [h0] at hmsg
    simp only [Prod.mk.injEq, Option.some.injEq, true_and] at hmsg
    subst hmsg
    refine ⟨by decide, fun c => ?_⟩
    exact string_ne_append_left _ _ _ (by decide) (by decide)

/-- Witness for C3: both unimplemented operation names at concrete inputs
yield exactly their not-implemented errors with nil outputs. -/
theorem query_not_implemented_witness :
    Query handlersEx "u" OperationSurvivalQuery "p" [] =
      (none, none, some (logError "operation survivalQuery not implemented" none))
  ∧ Query handlersEx "u" OperationSearchOntology "p" [] =
      (none, none, some (logError "operation searchOntology not implemented" none)) :=
  ⟨(query_not_implemented handlersEx "u" "p" [] OperationSurvivalQuery (Or.inl rfl)).1 rfl,
   (query_not_implemented handlersEx "u" "p" [] OperationSearchOntology (Or.inr rfl)).2.1 rfl⟩

/-- C4: for every recognized implemented operation, when the resolved
handler errors, `Query` returns nil results, nil outputs and the handler
error wrapped with the operation name as context, the underlying message
preserved. -/
theorem query_wraps_handler_error (ds : OperationHandlers)
    (userID operation jsonParameters : String)
    (sharedIDs : List (String × String)) (handler : OperationHandler)
    (r : Option String) (o : Option (List String)) (e : String)
    (hres : resolveHandler ds operation = some handler)
    (hrun : handler userID jsonParameters sharedIDs = (r, o, some e)) :
    Query ds userID operation jsonParameters sharedIDs =
      (none, none,
        some (logError ( "executing operation " ++ operation) (some e))) := by
  rw [query_eq_runHandler ds userID operation jsonParameters sharedIDs handler hres]
  unfold runHandler
  rw [hrun]

/-- Witness for C4: the failing search-concept handler of the concrete suite
makes `Query` return the wrapped error with nil results and outputs. -/
theorem query_wraps_handler_error_witness :
    Query handlersEx "u" OperationSearchConcept "p" [] =
      (none, none,
        some (logError ( "executing operation " ++ OperationSearchConcept) (some "boom"))) :=
  query_wraps_handler_error handlersEx "u" OperationSearchConcept "p" []
    handlerFailEx none none "boom" rfl rfl

/-- C8: data-source construction fails closed with a non-nil error when the
wait-time configuration value does not parse (and on database failure); on
parse success the parsed duration becomes the connection-info wait time, and
every string field is passed through from the configuration verbatim with no
non-emptiness validation. -/
theorem newI2b2DataSource_parse (parseDuration : String → Except String Int)
    (config : List (String × String)) :
    (∀ e : String,
      parseDuration (configGet config "i2b2.api.wait-time") = .error e →
      NewI2b2DataSource (.ok ()) parseDuration config =
        .error (logError "parsing i2b2 wait time" (some e)))
  ∧ (∀ (dbe : String),
      NewI2b2DataSource (.error dbe) parseDuration config =
        .error (logError "initializing database connection" (some dbe)))
  ∧ (∀ d : Int,
      parseDuration (configGet config "i2b2.api.wait-time") = .ok d →
      NewI2b2DataSource (.ok ()) parseDuration config =
        .ok { ci := { hiveURL := configGet config "i2b2.api.url"
                      domain := configGet config "i2b2.api.domain"
                      username := configGet config "i2b2.api.username"
                      password := configGet config "i2b2.api.password"
                      project := configGet config "i2b2.api.project"
                      waitTime := d }
              i2b2OntMaxElements := configGet config "i2b2.api.ont-max-elements" }) := by
  refine ⟨fun e he => ?_, fun dbe => rfl, fun d hd => ?_⟩
  · simp [NewI2b2DataSource, he]
  · simp [NewI2b2DataSource, hd]

/-- Witness for C8: an unparsable wait time fails construction with a
non-nil error; a parsable one constructs the data source with the exact
configuration strings, empty ones included, and the parsed duration. -/
theorem newI2b2DataSource_parse_witness :
    NewI2b2DataSource (.ok ()) parseDurationEx [( "i2b2.api.wait-time", "oops")] =
      .error (logError "parsing i2b2 wait time" (some "time: invalid duration"))
  ∧ NewI2b2DataSource (.ok ()) parseDurationEx
      [( "i2b2.api.wait-time", "5s"), ( "i2b2.api.domain", "d")] =
      .ok { ci := { hiveURL := "", domain := "d", username := "", password := ""
                    project := "", waitTime := 5000000000 }
            i2b2OntMaxElements := "" } :=
  ⟨(newI2b2DataSource_parse parseDurationEx
      [( "i2b2.api.wait-time", "oops")]).1 "time: invalid duration" rfl,
   ((newI2b2DataSource_parse parseDurationEx
      [( "i2b2.api.wait-time", "5s"), ( "i2b2.api.domain", "d")]).2.2 5000000000 rfl).trans rfl⟩

end I2b2

